import Mathlib

/-!
Verification of the WebUIFlasher repository (firmware-flashing convenience
layer for ESP32 devices) against its natural-language specification.

The Python sources are shallowly embedded: pure string processing becomes
functions on `List Char`, subprocess and filesystem effects become explicit
oracle parameters (exit outcomes, file-existence flags), and command lines
become `List String` values assembled exactly as the source assembles them.
-/

namespace WebUIFlasher

/-! ## String utilities shared by the embeddings -/

/-- Checks that `needle` is a prefix of `hay` (character lists). -/
def listPrefixOf : List Char → List Char → Bool
  | [], _ => true
  | _ :: _, [] => false
  | a :: as, b :: bs => a == b && listPrefixOf as bs

/-- Python substring containment `needle in hay` over character lists:
true when `needle` occurs contiguously in `hay` (an empty needle always
matches). -/
def containsSub (needle : List Char) : List Char → Bool
  | [] => needle.isEmpty
  | h :: t => listPrefixOf needle (h :: t) || containsSub needle t

/-! ## determine_message_type (src/scripts/webflasher.py, lines 51-64) -/

/-- Embedding of `determine_message_type` from `scripts/webflasher.py`:
classifies an output line into one of five message categories by substring
matches, checking the lowercased line except for the literal "%" check
which is done on the original line. -/
def determine_message_type (line : List Char) : String :=
  let line_lower := line.map Char.toLower
  if containsSub ("writing at".toList) line_lower || containsSub ("%".toList) line then
    "progress"
  else if containsSub ("error".toList) line_lower || containsSub ("failed".toList) line_lower then
    "error"
  else if containsSub ("connecting".toList) line_lower || containsSub ("chip is".toList) line_lower then
    "info"
  else if containsSub ("compressed".toList) line_lower || containsSub ("wrote".toList) line_lower then
    "success"
  else
    "output"

/-! ## Subprocess outcomes

Subprocess effects are embedded as an explicit oracle describing how the
spawned external tool behaved: it exited with some code, could not be
spawned at all (Python `FileNotFoundError`), or raised some other
exception. -/

/-- Outcome of running an external subprocess (`subprocess.run`). -/
inductive SubprocessOutcome where
  | exited (code : Int)
  | spawnFailed
  | otherError
deriving DecidableEq

/-! ## flash_binary_file / flash_factory_image / flash_via_platformio
(src/scripts/flash_utils/flash.py, factory.py, platformio.py) -/

/-- Embedding of the return value of `flash_binary_file`
(`scripts/flash_utils/flash.py`): returns False when the firmware file is
missing; otherwise runs esptool with `check=True`, so a zero exit returns
True and `CalledProcessError` (non-zero exit), `FileNotFoundError` (tool
not installed) and any other exception are caught and return False. -/
def flash_binary_file (file_exists : Bool) (outcome : SubprocessOutcome) : Bool :=
  if !file_exists then false
  else
    match outcome with
    | .exited code => code == 0
    | .spawnFailed => false
    | .otherError => false

/-- Embedding of the return value of `flash_factory_image`
(`scripts/flash_utils/factory.py`): runs esptool with `check=True`;
zero exit returns True, `CalledProcessError` and any other exception
(including a failed spawn) are caught and return False. -/
def flash_factory_image (outcome : SubprocessOutcome) : Bool :=
  match outcome with
  | .exited code => code == 0
  | .spawnFailed => false
  | .otherError => false

/-- Embedding of the return value of `flash_via_platformio`
(`scripts/flash_utils/platformio.py`): runs `pio run --target upload`
with `check=True`; zero exit returns True, `CalledProcessError`,
`FileNotFoundError` and any other exception are caught and return False. -/
def flash_via_platformio (outcome : SubprocessOutcome) : Bool :=
  match outcome with
  | .exited code => code == 0
  | .spawnFailed => false
  | .otherError => false

/-! ## POSIX path embedding (pathlib.PurePosixPath)

The sources build filesystem paths with `pathlib.Path`; `pathlib`
collapses spurious slashes and single-dot components at construction, so
a path is embedded as an absolute flag together with the list of
remaining components. -/

/-- A parsed POSIX path: absolute flag and cleaned component list. -/
structure PurePath where
  absolute : Bool
  components : List String
deriving DecidableEq

/-- Splits a character list at every slash, like Python `str.split("/")`. -/
def splitComponents : List Char → List (List Char)
  | [] => [[]]
  | c :: rest =>
    match splitComponents rest with
    | [] => [[]]
    | comp :: comps => if c = '/' then [] :: comp :: comps else (c :: comp) :: comps

/-- True when the string begins with a slash. -/
def pathIsAbsolute (s : String) : Bool :=
  match s.toList with
  | '/' :: _ => true
  | _ => false

/-- Embedding of `pathlib.Path(s)` construction: split on slashes and drop
empty and single-dot components, as pathlib's normalization does. -/
def parsePath (s : String) : PurePath :=
  PurePath.mk (pathIsAbsolute s)
    (((splitComponents s.toList).map (fun l => String.mk l)).filter
      (fun comp => comp != "" && comp != "."))

/-- Embedding of `pathlib` path joining `p / child`: an absolute child
replaces the anchor, otherwise the child's components are appended. -/
def joinPath (p : PurePath) (child : String) : PurePath :=
  let c := parsePath child
  if c.absolute then c else PurePath.mk p.absolute (p.components ++ c.components)

/-- Joins strings with a separator (used to render a path back to text). -/
def joinStrings (sep : String) : List String → String
  | [] => ""
  | [s] => s
  | s :: rest => s ++ sep ++ joinStrings sep rest

/-- Embedding of `str(p)` on a pathlib path. -/
def renderPath (p : PurePath) : String :=
  let body := joinStrings "/" p.components
  if p.absolute then "/" ++ body else if body = "" then "." else body

/-! ## Configuration model (src/scripts/flash_utils/config.py)

The YAML manifest is embedded as the fields the flashing code reads:
each source entry's optional "name", "type" and "path" keys, and the
top-level optional "fetchdir" key.  A missing key is `none`, matching
Python `dict.get` returning `None`. -/

/-- One entry of `config["sources"]`. -/
structure Source where
  name : Option String
  type : Option String
  path : Option String
deriving DecidableEq

/-- The loaded sources configuration. -/
structure Config where
  sources : List Source
  fetchdir : Option String
deriving DecidableEq

/-- Iteration of the `for source in config.get("sources", [])` loop of
`find_firmware_config`: returns the first entry whose "name" key equals
the requested name (a missing "name" key never matches a string). -/
def findSourceByName (sources : List Source) (name : String) : Option Source :=
  match sources with
  | [] => none
  | s :: rest => if s.name == some name then some s else findSourceByName rest name

/-- Embedding of `find_firmware_config` (`scripts/flash_utils/config.py`). -/
def find_firmware_config (config : Config) (name : String) : Option Source :=
  findSourceByName config.sources name

/-- Embedding of `get_firmware_path` (`scripts/flash_utils/config.py`):
`Path(config.get("fetchdir", "./tmpfw")) / f"<name>.bin"`. -/
def get_firmware_path (config : Config) (name : String) : PurePath :=
  let fetchdir := config.fetchdir.getD "./tmpfw"
  joinPath (parsePath fetchdir) (name ++ ".bin")

/-- Embedding of the hardcoded firmware path `Path("tmpfw") / f"<name>.bin"`
used by the web layer (`scripts/webflasher.py`: `api_flash_firmware`,
`FirmwareInfo._check_availability`, the WebSocket flash handler and
`flash_with_live_output`). -/
def web_firmware_path (name : String) : PurePath :=
  joinPath (parsePath "tmpfw") (name ++ ".bin")

/-! ## flash_firmware dispatch (src/scripts/flash_utils/flash.py, lines 123-139) -/

/-- The three paths `flash_firmware` can take after looking up the name. -/
inductive FlashRoute where
  | notFound
  | localProject (fc : Source)
  | binaryFile (fc : Source)
deriving DecidableEq

/-- Embedding of the control flow of `flash_firmware`
(`scripts/flash_utils/flash.py`): look the name up with
`find_firmware_config`; if absent return early, otherwise dispatch on
`firmware_config.get("type", "unknown")` being "local". -/
def flash_firmware_route (config : Config) (name : String) : FlashRoute :=
  match find_firmware_config config name with
  | none => FlashRoute.notFound
  | some fc =>
    if fc.type.getD "unknown" = "local" then FlashRoute.localProject fc
    else FlashRoute.binaryFile fc

/-- Return value of `flash_firmware` as a function of the route taken and
of what the two sub-flows (`flash_local_project`, `flash_binary_file`)
would return: the not-found route returns False without consulting
either sub-flow (no subprocess is spawned there). -/
def flash_firmware_result (route : FlashRoute) (localResult binaryResult : Bool) : Bool :=
  match route with
  | FlashRoute.notFound => false
  | FlashRoute.localProject _ => localResult
  | FlashRoute.binaryFile _ => binaryResult

/-! ## esptool command assembly (flash.py, factory.py, webflasher.py) -/

/-- The esptool argument list assembled by `flash_binary_file`
(`scripts/flash_utils/flash.py`, lines 86-100): baud, optional port, then
`write-flash 0x0 <firmware file>`. -/
def flash_binary_file_cmd (baudrate : Nat) (port : Option String) (firmware_path : String) :
    List String :=
  ["python", "-m", "esptool", "--baud", toString baudrate]
  ++ (match port with
      | some p => ["--port", p]
      | none => [])
  ++ ["write-flash", "0x0", firmware_path]

/-- The esptool argument list assembled by `flash_factory_image`
(`scripts/flash_utils/factory.py`, lines 119-133). -/
def flash_factory_image_cmd (baudrate : Nat) (port : Option String) (factory_image : String) :
    List String :=
  ["python", "-m", "esptool", "--baud", toString baudrate]
  ++ (match port with
      | some p => ["--port", p]
      | none => [])
  ++ ["write-flash", "0x0", factory_image]

/-- The esptool argument list assembled by `flash_with_live_output`
(`scripts/webflasher.py`, lines 970-985): optional port (skipped for
"auto"), fixed baudrate 921600, then `write-flash 0x0 tmpfw/<name>.bin`. -/
def flash_with_live_output_cmd (port : String) (firmware_name : String) : List String :=
  ["python", "-m", "esptool"]
  ++ (if port != "auto" then ["--port", port] else [])
  ++ ["--baud", "921600", "write-flash", "0x0", renderPath (web_firmware_path firmware_name)]

/-! ## create_factory_image (src/scripts/flash_utils/factory.py, lines 9-112) -/

/-- Filesystem and subprocess facts `create_factory_image` observes, in
the order the source consults them: whether `pio run` succeeded, whether
`.pio/build` exists, its environment subdirectories, whether the three
required binaries and the optional `boot_app0.bin` exist, whether the
esptool merge subprocess succeeded, and whether the merged output file
exists afterwards. -/
structure FactoryBuildWorld where
  build_ok : Bool
  build_dir_exists : Bool
  env_dirs : List String
  bootloader_exists : Bool
  partitions_exists : Bool
  firmware_exists : Bool
  boot_app0_exists : Bool
  merge_ok : Bool
  factory_image_exists : Bool
deriving DecidableEq

/-- The esptool merge argument list assembled by `create_factory_image`
(`scripts/flash_utils/factory.py`): fixed merge options, then
`0x1000 bootloader.bin`, `0x8000 partitions.bin`, optionally
`0xe000 boot_app0.bin`, and `0x10000 firmware.bin` last, all as paths
relative to the project directory. -/
def create_factory_image_cmd (name env_name : String) (boot_app0_exists : Bool) :
    List String :=
  ["python", "-m", "esptool", "--chip", "esp32", "merge-bin", "-o",
   name ++ "-factory.bin", "--flash-mode", "dio", "--flash-freq", "40m",
   "--flash-size", "4MB",
   "0x1000", ".pio/build/" ++ env_name ++ "/bootloader.bin",
   "0x8000", ".pio/build/" ++ env_name ++ "/partitions.bin"]
  ++ (if boot_app0_exists then ["0xe000", ".pio/build/" ++ env_name ++ "/boot_app0.bin"] else [])
  ++ ["0x10000", ".pio/build/" ++ env_name ++ "/firmware.bin"]

/-- Embedding of the control flow of `create_factory_image`
(`scripts/flash_utils/factory.py`): any failed build, missing build
directory, missing environment, missing required binary, failed merge
subprocess, or missing merged output yields `none`; otherwise the path
`<name>-factory.bin` inside the project directory is returned. -/
def create_factory_image (name : String) (w : FactoryBuildWorld) : Option String :=
  if !w.build_ok then none
  else if !w.build_dir_exists then none
  else
    match w.env_dirs with
    | [] => none
    | _env :: _ =>
      if !(w.bootloader_exists && w.partitions_exists && w.firmware_exists) then none
      else if !w.merge_ok then none
      else if w.factory_image_exists then some (name ++ "-factory.bin")
      else none

/-! ## GPIOController (src/scripts/flash_utils/gpio_control.py) -/

/-- Calls into the RPi.GPIO library issued by `GPIOController` methods
(`time.sleep` is not a GPIO library call and is not recorded). -/
inductive GpioCall where
  | setmode
  | setupOut (pin : Nat)
  | setupIn (pin : Nat)
  | output (pin : Nat) (value : Bool)
deriving DecidableEq

/-- Embedding of `GPIOController.setup_pin`: result flag and the GPIO
library calls issued.  When `gpio_available` is false the method returns
False before touching the library; an unknown mode returns False after
the `setmode` call.  The no-exception behaviour is modelled. -/
def setup_pin (gpio_available : Bool) (pin : Nat) (mode : String) : Bool × List GpioCall :=
  if !gpio_available then (false, [])
  else if mode = "OUT" then (true, [GpioCall.setmode, GpioCall.setupOut pin])
  else if mode = "IN" then (true, [GpioCall.setmode, GpioCall.setupIn pin])
  else (false, [GpioCall.setmode])

/-- Embedding of `GPIOController.set_pin`: result flag and the GPIO
library calls issued.  When `gpio_available` is false the method returns
False before touching the library. -/
def set_pin (gpio_available : Bool) (pin : Nat) (value : Bool) : Bool × List GpioCall :=
  if !gpio_available then (false, [])
  else (true, [GpioCall.output pin value])

/-- Embedding of `GPIOController.pulse_pin`: result flag and the GPIO
library calls issued.  When `gpio_available` is false the method returns
False before touching the library; otherwise it issues `set_pin` with the
initial state `not active_low`, then the pulse state `active_low`, then
the initial state again, with sleeps (not GPIO calls) in between.  The
pulse duration only feeds `time.sleep`, so it does not appear here. -/
def pulse_pin (gpio_available : Bool) (pin : Nat) (active_low : Bool) : Bool × List GpioCall :=
  if !gpio_available then (false, [])
  else
    let initial_state := !active_low
    let pulse_state := active_low
    let c1 := set_pin gpio_available pin initial_state
    let c2 := set_pin gpio_available pin pulse_state
    let c3 := set_pin gpio_available pin initial_state
    (true, c1.2 ++ c2.2 ++ c3.2)

/-! ## Batch production loop (src/scripts/flash_firmware.py) -/

/-- Key classification of `wait_for_user_input`
(`scripts/flash_firmware.py`): ESC (code 27) or a lowercase or uppercase
letter n stops the batch loop. -/
def stop_key (k : Char) : Bool :=
  k.toNat == 27 || k.toLower == 'n'

/-- Embedding of `wait_for_user_input` over the stream of keys the user
will press: reads one key; end of input (EOF) returns False, a stop key
returns False, anything else returns True. -/
def wait_for_user_input (keys : List Char) : Bool :=
  match keys with
  | [] => false
  | k :: _ => !(stop_key k)

/-- Embedding of the `--loop` batch-production loop in `main`
(`scripts/flash_firmware.py`, lines 117-147): each iteration increments
the device counter, calls `flash_firmware` (recorded in the returned
list, its result never consulted by the control flow), then calls
`wait_for_user_input`, exiting when it returns False.  Returns the final
device count and the per-iteration flash results. -/
def batch_production_loop (flash : Nat → Bool) : List Char → Nat → Nat × List Bool
  | [], device_count =>
    let c := device_count + 1
    (c, [flash c])
  | k :: rest, device_count =>
    let c := device_count + 1
    let ok := flash c
    if stop_key k then (c, [ok])
    else
      let r := batch_production_loop flash rest c
      (r.1, ok :: r.2)

/-! ## clean_ansi_sequences (src/scripts/webflasher.py, lines 44-48)

The source removes every match of the regex `ESC [ [0-9;]* [mKABC]` from
the text.  Since the final character class is disjoint from the parameter
class, the regex matches at a position exactly when the maximal run of
parameter characters after `ESC [` is followed by a final character, and
`re.sub` scans match start positions left to right. -/

/-- True for the final characters of the ANSI pattern, `[mKABC]`. -/
def ansiFinal (c : Char) : Bool :=
  c = 'm' || c = 'K' || c = 'A' || c = 'B' || c = 'C'

/-- Skips the maximal run of ANSI parameter characters `[0-9;]`. -/
def dropParams : List Char → List Char
  | [] => []
  | c :: rest => if c.isDigit || c = ';' then dropParams rest else c :: rest

/-- Matches the ANSI regex at the head of the list, returning the rest of
the input after the match when it succeeds. -/
def matchAnsi : List Char → Option (List Char)
  | '\x1b' :: '[' :: rest =>
    (match dropParams rest with
     | c :: rest2 => if ansiFinal c then some rest2 else none
     | [] => none)
  | _ => none

/-- Left-to-right regex substitution scan, fuelled by the input length
(every step consumes at least one character). -/
def cleanAnsiGo : Nat → List Char → List Char
  | 0, l => l
  | _, [] => []
  | fuel + 1, c :: rest =>
    match matchAnsi (c :: rest) with
    | some remaining => cleanAnsiGo fuel remaining
    | none => c :: cleanAnsiGo fuel rest

/-- Embedding of `clean_ansi_sequences` (`scripts/webflasher.py`). -/
def clean_ansi_sequences (l : List Char) : List Char :=
  cleanAnsiGo l.length l

/-! ## WebSocket streaming loop
(src/scripts/webflasher.py: `flash_with_live_output` lines 1037-1126 and
the identical loop of `handle_esptool_command` lines 509-582) -/

/-- Python whitespace characters recognized by `str.strip()` (ASCII). -/
def pyIsSpace (c : Char) : Bool :=
  c = ' ' || c = '\t' || c = '\n' || c = '\r' || c = '\x0b' || c = '\x0c'

/-- Embedding of Python `str.strip()`. -/
def stripList (l : List Char) : List Char :=
  ((l.dropWhile pyIsSpace).reverse.dropWhile pyIsSpace).reverse

/-- Embedding of Python `buffer.split(sep, 1)` for a single-character
separator: the text before the first occurrence and the text after it. -/
def splitFirst (sep : Char) : List Char → List Char × List Char
  | [] => ([], [])
  | c :: rest =>
    if c = sep then ([], rest)
    else
      let r := splitFirst sep rest
      (c :: r.1, r.2)

/-- A message sent over the WebSocket: its "type" field and text
(timestamps are not modelled). -/
structure Msg where
  type : String
  message : List Char
deriving DecidableEq

/-- Messages emitted for a complete (newline-terminated) line in the
streaming loop: nothing for an empty cleaned line, otherwise one message
whose type comes from `determine_message_type` (the source forces the
"progress" type through an explicit branch that sends the same thing). -/
def emitComplete (line_clean : List Char) : List Msg :=
  if line_clean = [] then []
  else
    let msg_type := determine_message_type line_clean
    if msg_type = "progress" then [Msg.mk "progress" line_clean]
    else [Msg.mk msg_type line_clean]

/-- The inner `while "\n" in buffer or "\r" in buffer` loop of the
streaming functions, fuelled by the buffer length (each split removes the
separator, so the buffer shrinks every iteration).  State is the buffer
and `last_progress_line`; returns the messages sent, the remaining buffer
and the updated `last_progress_line`. -/
def process_lines_go :
    Nat → List Char → Option (List Char) → List Msg × List Char × Option (List Char)
  | 0, buffer, last_progress_line => ([], buffer, last_progress_line)
  | fuel + 1, buffer, last_progress_line =>
    if '\n' ∈ buffer then
      let s := splitFirst '\n' buffer
      let line_clean := clean_ansi_sequences s.1
      let r := process_lines_go fuel s.2 last_progress_line
      (emitComplete line_clean ++ r.1, r.2)
    else if '\r' ∈ buffer then
      let s := splitFirst '\r' buffer
      let line_clean := clean_ansi_sequences s.1
      if line_clean ≠ [] ∧ some line_clean ≠ last_progress_line then
        let r := process_lines_go fuel s.2 (some line_clean)
        (Msg.mk "progress" line_clean :: r.1, r.2)
      else
        process_lines_go fuel s.2 last_progress_line
    else ([], buffer, last_progress_line)

/-- The inner streaming loop at its natural fuel. -/
def process_lines (buffer : List Char) (last_progress_line : Option (List Char)) :
    List Msg × List Char × Option (List Char) :=
  process_lines_go buffer.length buffer last_progress_line

/-- One iteration of the outer chunk-reading loop of
`flash_with_live_output`: append the chunk to the buffer, possibly send a
"partial" message when the buffer is substantial and holds no separator,
then run the line-splitting loop.  The accumulator carries the messages
sent so far, the buffer and `last_progress_line`. -/
def step_chunk (acc : List Msg × List Char × Option (List Char)) (chunk : List Char) :
    List Msg × List Char × Option (List Char) :=
  let buffer := acc.2.1 ++ chunk
  let last_progress_line := acc.2.2
  let partialMsgs :=
    if 10 < buffer.length ∧ '\n' ∉ buffer ∧ '\r' ∉ buffer then
      let buffer_clean := clean_ansi_sequences buffer
      if stripList buffer_clean ≠ [] ∧ some buffer_clean ≠ last_progress_line then
        [Msg.mk "partial" buffer_clean]
      else []
    else []
  let r := process_lines buffer last_progress_line
  (acc.1 ++ partialMsgs ++ r.1, r.2)

/-- The message sent after the subprocess exits in
`flash_with_live_output`: "success" on a zero return code, "error"
otherwise. -/
def final_message (returncode : Int) (firmware_name : String) : Msg :=
  if returncode == 0 then
    Msg.mk "success" (("✅ " ++ firmware_name ++ " flashed successfully!").toList)
  else
    Msg.mk "error" (("❌ Flash failed with code " ++ toString returncode).toList)

/-- All messages `flash_with_live_output` sends for a stream of stdout
chunks and a final return code: the chunk loop, then any leftover buffer
as an "output" message, then the final success or error message. -/
def flash_stream_messages (chunks : List (List Char)) (returncode : Int)
    (firmware_name : String) : List Msg :=
  let r := chunks.foldl step_chunk ([], [], none)
  let leftoverMsgs :=
    if stripList r.2.1 ≠ [] then
      let buffer_clean := clean_ansi_sequences r.2.1
      if stripList buffer_clean ≠ [] then [Msg.mk "output" buffer_clean] else []
    else []
  r.1 ++ leftoverMsgs ++ [final_message returncode firmware_name]

/-! ## Helper lemmas -/

theorem splitFirst_length_lt (sep : Char) (l : List Char) (h : sep ∈ l) :
    (splitFirst sep l).2.length < l.length := by
  induction l with
  | nil => cases h
  | cons c rest ih =>
    by_cases hc : c = sep
    · simp [splitFirst, hc]
    · have h2 : sep ∈ rest := by
        rcases List.mem_cons.mp h with h1 | h1
        · exact absurd h1.symm hc
        · exact h1
      have := ih h2
      simp only [splitFirst, if_neg hc]
      simpa using Nat.lt_trans this (Nat.lt_succ_self _)

theorem process_lines_go_fuel (f1 : Nat) :
    ∀ (f2 : Nat) (buffer : List Char) (last : Option (List Char)),
      buffer.length ≤ f1 → buffer.length ≤ f2 →
      process_lines_go f1 buffer last = process_lines_go f2 buffer last := by
  induction f1 with
  | zero =>
    intro f2 buffer last h1 _
    have hb : buffer = [] := List.length_eq_zero.mp (Nat.le_zero.mp h1)
    subst hb
    cases f2 <;> simp [process_lines_go]
  | succ g ih =>
    intro f2 buffer last h1 h2
    cases f2 with
    | zero =>
      have hb : buffer = [] := List.length_eq_zero.mp (Nat.le_zero.mp h2)
      subst hb
      simp [process_lines_go]
    | succ g2 =>
      by_cases hn : '\n' ∈ buffer
      · have hlt := splitFirst_length_lt '\n' buffer hn
        simp only [process_lines_go, if_pos hn]
        rw [ih g2 (splitFirst '\n' buffer).2 last (by omega) (by omega)]
      · by_cases hr : '\r' ∈ buffer
        · have hlt := splitFirst_length_lt '\r' buffer hr
          simp only [process_lines_go, if_pos hr, if_neg hn]
          by_cases hcond : clean_ansi_sequences (splitFirst '\r' buffer).1 ≠ []
              ∧ some (clean_ansi_sequences (splitFirst '\r' buffer).1) ≠ last
          · rw [if_pos hcond, if_pos hcond,
              ih g2 (splitFirst '\r' buffer).2 _ (by omega) (by omega)]
          · rw [if_neg hcond, if_neg hcond,
              ih g2 (splitFirst '\r' buffer).2 _ (by omega) (by omega)]
        · simp only [process_lines_go, if_neg hn, if_neg hr]

theorem findSourceByName_eq_some (sources : List Source) (name : String) (fc : Source)
    (h : findSourceByName sources name = some fc) :
    ∃ pre post, sources = pre ++ fc :: post ∧ fc.name = some name ∧
      ∀ s ∈ pre, s.name ≠ some name := by
  induction sources with
  | nil => simp [findSourceByName] at h
  | cons s rest ih =>
    cases hs : s.name == some name with
    | true =>
      rw [findSourceByName, if_pos hs] at h
      obtain rfl : s = fc := by injection h
      exact ⟨[], rest, rfl, by simpa using hs, by simp⟩
    | false =>
      rw [findSourceByName, if_neg (by simp [hs])] at h
      obtain ⟨pre, post, heq, hname, hpre⟩ := ih h
      refine ⟨s :: pre, post, by simp [heq], hname, ?_⟩
      intro s2 hs2
      rcases List.mem_cons.mp hs2 with h1 | h1
      · subst h1
        simpa using hs
      · exact hpre s2 h1

theorem batch_production_loop_count (flash : Nat → Bool) (keys : List Char) :
    ∀ c : Nat,
      (batch_production_loop flash keys c).1
        = c + (keys.takeWhile (fun k => !stop_key k)).length + 1
      ∧ (batch_production_loop flash keys c).2.length
        = (keys.takeWhile (fun k => !stop_key k)).length + 1 := by
  induction keys with
  | nil => intro c; simp [batch_production_loop]
  | cons k rest ih =>
    intro c
    cases hk : stop_key k with
    | true => simp [batch_production_loop, hk, List.takeWhile_cons]
    | false =>
      have := ih (c + 1)
      simp only [batch_production_loop, hk, List.takeWhile_cons, Bool.not_false,
        if_true, if_false, Bool.false_eq_true, List.length_cons]
      refine ⟨?_, ?_⟩
      · rw [this.1]; omega
      · simp [this.2]

/-! ## Claim theorems -/

/-- Claim C1: for every input line, `determine_message_type` is a total
classifier over substring matches returning exactly one of five
categories, with priority progress (contains "writing at" lowercased or
"%" in the original), then error ("error"/"failed"), then info
("connecting"/"chip is"), then success ("compressed"/"wrote"), else
output; in particular a line containing both "error" and "%" is
classified "progress". -/
theorem claim_C1_determine_message_type (line : List Char) :
    (determine_message_type line = "progress" ∨ determine_message_type line = "error" ∨
     determine_message_type line = "info" ∨ determine_message_type line = "success" ∨
     determine_message_type line = "output")
    ∧ determine_message_type line =
        (if containsSub ("writing at".toList) (line.map Char.toLower)
            || containsSub ("%".toList) line then "progress"
         else if containsSub ("error".toList) (line.map Char.toLower)
            || containsSub ("failed".toList) (line.map Char.toLower) then "error"
         else if containsSub ("connecting".toList) (line.map Char.toLower)
            || containsSub ("chip is".toList) (line.map Char.toLower) then "info"
         else if containsSub ("compressed".toList) (line.map Char.toLower)
            || containsSub ("wrote".toList) (line.map Char.toLower) then "success"
         else "output")
    ∧ (containsSub ("error".toList) (line.map Char.toLower) = true →
       containsSub ("%".toList) line = true →
       determine_message_type line = "progress") := by
  refine ⟨?_, rfl, ?_⟩
  · simp only [determine_message_type]
    split
    · exact Or.inl rfl
    split
    · exact Or.inr (Or.inl rfl)
    split
    · exact Or.inr (Or.inr (Or.inl rfl))
    split
    · exact Or.inr (Or.inr (Or.inr (Or.inl rfl)))
    · exact Or.inr (Or.inr (Or.inr (Or.inr rfl)))
  · intro _ hp
    simp only [determine_message_type, hp]
    simp

/-- Witness for C1 at the concrete line "error 50%", which contains both
"error" and "%" and is classified "progress". -/
theorem claim_C1_witness :
    containsSub ("error".toList) (("error 50%".toList).map Char.toLower) = true
    ∧ containsSub ("%".toList) ("error 50%".toList) = true
    ∧ determine_message_type ("error 50%".toList) = "progress" :=
  ⟨by decide, by decide,
   (claim_C1_determine_message_type ("error 50%".toList)).2.2 (by decide) (by decide)⟩

/-- Claim C2: every flashing operation reports failure exactly when the
external subprocess exits non-zero — with the firmware file present (so
the tool is spawned), `flash_binary_file` returns True iff the subprocess
exited zero, and likewise `flash_factory_image` and
`flash_via_platformio`; non-zero exits, failed spawns and other
exceptions all return False rather than raising. -/
theorem claim_C2_failure_iff_nonzero_exit (outcome : SubprocessOutcome) :
    (flash_binary_file true outcome = true ↔ outcome = SubprocessOutcome.exited 0)
    ∧ (flash_factory_image outcome = true ↔ outcome = SubprocessOutcome.exited 0)
    ∧ (flash_via_platformio outcome = true ↔ outcome = SubprocessOutcome.exited 0)
    ∧ flash_binary_file false outcome = false := by
  cases outcome <;>
    simp [flash_binary_file, flash_factory_image, flash_via_platformio]

/-- Witness for C2: a zero exit reports success and a non-zero exit
reports failure, concretely. -/
theorem claim_C2_witness :
    flash_binary_file true (SubprocessOutcome.exited 0) = true
    ∧ flash_factory_image (SubprocessOutcome.exited 2) = false :=
  ⟨(claim_C2_failure_iff_nonzero_exit (SubprocessOutcome.exited 0)).1.mpr rfl,
   by
    have h := (claim_C2_failure_iff_nonzero_exit (SubprocessOutcome.exited 2)).2.1
    revert h
    decide⟩

/-- Claim C3: every esptool write-flash command the program constructs
(CLI binary-file path, factory-image path, web flasher live-output path)
places the firmware image at flash address zero — the argument list
always ends with "write-flash" immediately followed by "0x0" and the
firmware file path, for every name, port and baudrate. -/
theorem claim_C3_write_flash_address_zero (config : Config) (name : String)
    (baudrate : Nat) (port : Option String) (web_port : String) (factory_image : String) :
    (∃ pre, flash_binary_file_cmd baudrate port (renderPath (get_firmware_path config name))
        = pre ++ ["write-flash", "0x0", renderPath (get_firmware_path config name)])
    ∧ (∃ pre, flash_factory_image_cmd baudrate port factory_image
        = pre ++ ["write-flash", "0x0", factory_image])
    ∧ (∃ pre, flash_with_live_output_cmd web_port name
        = pre ++ ["write-flash", "0x0", renderPath (web_firmware_path name)]) := by
  refine ⟨?_, ?_, ?_⟩
  · cases port with
    | none =>
      exact ⟨["python", "-m", "esptool", "--baud", toString baudrate], rfl⟩
    | some p =>
      exact ⟨["python", "-m", "esptool", "--baud", toString baudrate, "--port", p], rfl⟩
  · cases port with
    | none =>
      exact ⟨["python", "-m", "esptool", "--baud", toString baudrate], rfl⟩
    | some p =>
      exact ⟨["python", "-m", "esptool", "--baud", toString baudrate, "--port", p], rfl⟩
  · cases hp : web_port != "auto" with
    | true =>
      exact ⟨["python", "-m", "esptool", "--port", web_port, "--baud", "921600"],
        by simp [flash_with_live_output_cmd, hp]⟩
    | false =>
      exact ⟨["python", "-m", "esptool", "--baud", "921600"],
        by simp [flash_with_live_output_cmd, hp]⟩

/-- Claim C4: `flash_firmware` looks up the first `config["sources"]`
entry whose "name" equals the requested name; when none exists it returns
False without consulting either sub-flow; a matched entry whose "type" is
"local" takes the PlatformIO project path and every other type takes the
esptool binary-file path. -/
theorem claim_C4_flash_firmware_dispatch (config : Config) (name : String) :
    (find_firmware_config config name = none →
       flash_firmware_route config name = FlashRoute.notFound
       ∧ ∀ localResult binaryResult,
           flash_firmware_result (flash_firmware_route config name) localResult binaryResult
             = false)
    ∧ (∀ fc, find_firmware_config config name = some fc →
         (∃ pre post, config.sources = pre ++ fc :: post ∧ fc.name = some name
            ∧ ∀ s ∈ pre, s.name ≠ some name)
         ∧ (fc.type.getD "unknown" = "local" →
              flash_firmware_route config name = FlashRoute.localProject fc)
         ∧ (fc.type.getD "unknown" ≠ "local" →
              flash_firmware_route config name = FlashRoute.binaryFile fc)) := by
  constructor
  · intro h
    have hr : flash_firmware_route config name = FlashRoute.notFound := by
      unfold flash_firmware_route
      rw [h]
    exact ⟨hr, fun localResult binaryResult => by rw [hr]; rfl⟩
  · intro fc h
    refine ⟨findSourceByName_eq_some config.sources name fc h, ?_, ?_⟩
    · intro ht
      unfold flash_firmware_route
      rw [h]
      simp [ht]
    · intro ht
      unfold flash_firmware_route
      rw [h]
      simp [ht]

/-- Witness for C4 on concrete configurations: a "local" entry routes to
the PlatformIO path, an absent name yields False, and a "github" entry
routes to the esptool binary-file path. -/
theorem claim_C4_witness :
    flash_firmware_route (Config.mk [Source.mk (some "fw") (some "local") none] none) "fw"
      = FlashRoute.localProject (Source.mk (some "fw") (some "local") none)
    ∧ flash_firmware_result (flash_firmware_route (Config.mk [] none) "fw") true true = false
    ∧ flash_firmware_route (Config.mk [Source.mk (some "gh") (some "github") none] none) "gh"
      = FlashRoute.binaryFile (Source.mk (some "gh") (some "github") none) :=
  ⟨((claim_C4_flash_firmware_dispatch
      (Config.mk [Source.mk (some "fw") (some "local") none] none) "fw").2
      (Source.mk (some "fw") (some "local") none) (by decide)).2.1 (by decide),
   ((claim_C4_flash_firmware_dispatch (Config.mk [] none) "fw").1 (by decide)).2 true true,
   ((claim_C4_flash_firmware_dispatch
      (Config.mk [Source.mk (some "gh") (some "github") none] none) "gh").2
      (Source.mk (some "gh") (some "github") none) (by decide)).2.2 (by decide)⟩

/-- Claim C5: `create_factory_image` assembles the esptool merge-bin
command with bootloader.bin at 0x1000, partitions.bin at 0x8000, then
boot_app0.bin at 0xe000 only when that file exists, and firmware.bin at
0x10000 last; and it returns no image path whenever the build fails, the
build directory or any of the three required binaries is missing, or the
merged output file does not exist afterwards. -/
theorem claim_C5_create_factory_image (name env_name : String)
    (boot_app0_exists : Bool) (w : FactoryBuildWorld) :
    (create_factory_image_cmd name env_name boot_app0_exists
      = ["python", "-m", "esptool", "--chip", "esp32", "merge-bin", "-o",
         name ++ "-factory.bin", "--flash-mode", "dio", "--flash-freq", "40m",
         "--flash-size", "4MB"]
        ++ ["0x1000", ".pio/build/" ++ env_name ++ "/bootloader.bin"]
        ++ ["0x8000", ".pio/build/" ++ env_name ++ "/partitions.bin"]
        ++ (if boot_app0_exists then
              ["0xe000", ".pio/build/" ++ env_name ++ "/boot_app0.bin"]
            else [])
        ++ ["0x10000", ".pio/build/" ++ env_name ++ "/firmware.bin"])
    ∧ (create_factory_image_cmd name env_name boot_app0_exists).getLast?
        = some (".pio/build/" ++ env_name ++ "/firmware.bin")
    ∧ ((w.build_ok = false ∨ w.build_dir_exists = false ∨ w.bootloader_exists = false
        ∨ w.partitions_exists = false ∨ w.firmware_exists = false
        ∨ w.factory_image_exists = false) →
       create_factory_image name w = none) := by
  refine ⟨?_, ?_, ?_⟩
  · cases boot_app0_exists <;> rfl
  · cases boot_app0_exists <;> rfl
  · intro h
    obtain ⟨bo, bd, ed, bl, pt, fw, ba, mo, fi⟩ := w
    unfold create_factory_image
    cases bo <;> cases bd <;> cases bl <;> cases pt <;> cases fw <;> cases mo <;>
      cases fi <;> rcases ed with _ | ⟨e, ed⟩ <;> simp_all

/-- Witness for C5: a world where the PlatformIO build failed yields no
factory image. -/
theorem claim_C5_witness :
    create_factory_image "km271"
      (FactoryBuildWorld.mk false true ["esp32dev"] true true true true true true)
      = none :=
  (claim_C5_create_factory_image "km271" "esp32dev" true
    (FactoryBuildWorld.mk false true ["esp32dev"] true true true true true true)).2.2
    (Or.inl rfl)

/-- Claim C7: in batch-production loop mode a failed flash never
terminates the loop — the final device count does not depend on the flash
outcomes, every iteration performs exactly one flash (the count equals
the number of recorded flash attempts), the loop runs one iteration per
leading non-stop key plus the final one, and `wait_for_user_input`
returns False exactly on end of input or a stop key (ESC or the letter
n). -/
theorem claim_C7_batch_loop (flash flash2 : Nat → Bool) (keys : List Char) :
    (batch_production_loop flash keys 0).1 = (batch_production_loop flash2 keys 0).1
    ∧ (batch_production_loop flash keys 0).1 = (batch_production_loop flash keys 0).2.length
    ∧ (batch_production_loop flash keys 0).1
        = (keys.takeWhile (fun k => !stop_key k)).length + 1
    ∧ (wait_for_user_input keys = false ↔
        keys = [] ∨ ∃ k rest, keys = k :: rest ∧ stop_key k = true) := by
  have h1 := batch_production_loop_count flash keys 0
  have h2 := batch_production_loop_count flash2 keys 0
  refine ⟨by rw [h1.1, h2.1], by rw [h1.1, h1.2]; omega, by rw [h1.1]; omega, ?_⟩
  cases keys with
  | nil => simp [wait_for_user_input]
  | cons k rest =>
    cases hk : stop_key k <;> simp [wait_for_user_input, hk]

/-- Witness for C7: with key stream "xn" there are two iterations (one
failing flash does not stop the loop) and the count is two either way. -/
theorem claim_C7_witness :
    (batch_production_loop (fun _ => false) ("xn".toList) 0).1
      = (batch_production_loop (fun _ => true) ("xn".toList) 0).1
    ∧ (batch_production_loop (fun _ => false) ("xn".toList) 0).1
        = (("xn".toList).takeWhile (fun k => !stop_key k)).length + 1 :=
  ⟨(claim_C7_batch_loop (fun _ => false) (fun _ => true) ("xn".toList)).1,
   (claim_C7_batch_loop (fun _ => false) (fun _ => true) ("xn".toList)).2.2.1⟩

/-- Claim C8: whenever `gpio_available` is false (the RPi.GPIO import
failed), `setup_pin`, `set_pin` and `pulse_pin` all return False
immediately and issue no GPIO library call. -/
theorem claim_C8_gpio_guard (pin : Nat) (mode : String) (value active_low : Bool) :
    setup_pin false pin mode = (false, [])
    ∧ set_pin false pin value = (false, [])
    ∧ pulse_pin false pin active_low = (false, []) :=
  ⟨rfl, rfl, rfl⟩

/-- Claim C10: when GPIO is available and no exception occurs, the
`set_pin` calls issued by `pulse_pin` command the levels
not-active_low, active_low, not-active_low in that order, so the final
commanded level equals the initial one and is the inactive level for the
configured polarity. -/
theorem claim_C10_pulse_pin_restores (pin : Nat) (active_low : Bool) :
    (pulse_pin true pin active_low).2
      = [GpioCall.output pin (!active_low), GpioCall.output pin active_low,
         GpioCall.output pin (!active_low)]
    ∧ (pulse_pin true pin active_low).2.getLast?
        = (pulse_pin true pin active_low).2.head?
    ∧ (pulse_pin true pin active_low).2.head?
        = some (GpioCall.output pin (!active_low)) :=
  ⟨rfl, rfl, rfl⟩

/-- Claim C9 (amended): the web layer checks the hardcoded path
tmpfw/(name).bin while the CLI checks `config["fetchdir"]` (defaulting to
"./tmpfw"); for every configuration whose fetchdir does not normalize (as
a pathlib path) to the relative path tmpfw, and every firmware name that
is not an absolute path, the two checks inspect different paths. -/
theorem claim_C9_path_disagreement (config : Config) (name : String)
    (hrel : (parsePath (name ++ ".bin")).absolute = false)
    (hfd : parsePath (config.fetchdir.getD "./tmpfw") ≠ parsePath "tmpfw") :
    get_firmware_path config name ≠ web_firmware_path name := by
  intro heq
  apply hfd
  have h1 : get_firmware_path config name
      = PurePath.mk (parsePath (config.fetchdir.getD "./tmpfw")).absolute
          ((parsePath (config.fetchdir.getD "./tmpfw")).components
            ++ (parsePath (name ++ ".bin")).components) := by
    simp only [get_firmware_path, joinPath]
    rw [if_neg (by simp [hrel])]
  have h2 : web_firmware_path name
      = PurePath.mk (parsePath "tmpfw").absolute
          ((parsePath "tmpfw").components ++ (parsePath (name ++ ".bin")).components) := by
    simp only [web_firmware_path, joinPath]
    rw [if_neg (by simp [hrel])]
  rw [h1, h2] at heq
  simp only [PurePath.mk.injEq] at heq
  obtain ⟨ha, hc⟩ := heq
  have hcomp := List.append_cancel_right hc
  calc parsePath (config.fetchdir.getD "./tmpfw")
      = PurePath.mk (parsePath (config.fetchdir.getD "./tmpfw")).absolute
          (parsePath (config.fetchdir.getD "./tmpfw")).components := rfl
    _ = PurePath.mk (parsePath "tmpfw").absolute (parsePath "tmpfw").components := by
          rw [ha, hcomp]
    _ = parsePath "tmpfw" := rfl

/-- Witness for the amended C9: with fetchdir "data" the CLI inspects
data/x.bin while the web layer inspects tmpfw/x.bin. -/
theorem claim_C9_witness :
    get_firmware_path (Config.mk [] (some "data")) "x" ≠ web_firmware_path "x" :=
  claim_C9_path_disagreement (Config.mk [] (some "data")) "x" (by decide) (by decide)

/-- Counterexample to C9 as stated: the fetchdir "tmpfw/" differs from
both "tmpfw" and "./tmpfw" as a string, yet pathlib collapses the
trailing slash, so the CLI existence check and the web layer's hardcoded
check inspect the same path tmpfw/x.bin. -/
theorem claim_C9_counterexample :
    (("tmpfw/" : String) ≠ "tmpfw" ∧ ("tmpfw/" : String) ≠ "./tmpfw")
    ∧ get_firmware_path (Config.mk [] (some "tmpfw/")) "x" = web_firmware_path "x" :=
  ⟨⟨by decide, by decide⟩, by decide⟩

/-- Claim C6: the WebSocket streaming loop forwards subprocess stdout
line by line — splitting at a newline takes precedence whenever the
buffer holds one (even when a carriage return occurs earlier), and the
complete line is sent with the type assigned by `determine_message_type`
(progress lines staying "progress"); otherwise a carriage return splits
off an incomplete line sent as "progress" only when non-empty after ANSI
cleanup and different from the previously sent progress line (which is
then updated); and after the stream ends the message stream closes with a
"success" message when the exit code is zero and an "error" message
otherwise. -/
theorem claim_C6_streaming_loop (buffer : List Char) (last : Option (List Char))
    (chunks : List (List Char)) (returncode : Int) (firmware_name : String) :
    ('\n' ∈ buffer →
       process_lines buffer last =
         (emitComplete (clean_ansi_sequences (splitFirst '\n' buffer).1)
            ++ (process_lines (splitFirst '\n' buffer).2 last).1,
          (process_lines (splitFirst '\n' buffer).2 last).2))
    ∧ (∀ lc, emitComplete lc
         = if lc = [] then [] else [Msg.mk (determine_message_type lc) lc])
    ∧ ('\n' ∉ buffer → '\r' ∈ buffer →
       process_lines buffer last =
         (if clean_ansi_sequences (splitFirst '\r' buffer).1 ≠ []
             ∧ some (clean_ansi_sequences (splitFirst '\r' buffer).1) ≠ last then
            (Msg.mk "progress" (clean_ansi_sequences (splitFirst '\r' buffer).1)
               :: (process_lines (splitFirst '\r' buffer).2
                     (some (clean_ansi_sequences (splitFirst '\r' buffer).1))).1,
             (process_lines (splitFirst '\r' buffer).2
                (some (clean_ansi_sequences (splitFirst '\r' buffer).1))).2)
          else process_lines (splitFirst '\r' buffer).2 last))
    ∧ (∃ pre, flash_stream_messages chunks returncode firmware_name
         = pre ++ [final_message returncode firmware_name])
    ∧ ((final_message returncode firmware_name).type
         = if returncode == 0 then "success" else "error") := by
  refine ⟨?_, ?_, ?_, ⟨_, rfl⟩, ?_⟩
  · intro hn
    obtain ⟨k, hk⟩ : ∃ k, buffer.length = k + 1 := by
      cases buffer with
      | nil => simp at hn
      | cons a t => exact ⟨t.length, rfl⟩
    have hlt := splitFirst_length_lt '\n' buffer hn
    show process_lines_go buffer.length buffer last = _
    rw [hk]
    simp only [process_lines_go, if_pos hn]
    rw [process_lines_go_fuel k (splitFirst '\n' buffer).2.length
      (splitFirst '\n' buffer).2 last (by omega) (le_refl _)]
    rfl
  · intro lc
    by_cases h : lc = []
    · simp [emitComplete, h]
    · by_cases hm : determine_message_type lc = "progress"
      · simp [emitComplete, h, hm]
      · simp [emitComplete, h, hm]
  · intro hn hr
    obtain ⟨k, hk⟩ : ∃ k, buffer.length = k + 1 := by
      cases buffer with
      | nil => simp at hr
      | cons a t => exact ⟨t.length, rfl⟩
    have hlt := splitFirst_length_lt '\r' buffer hr
    show process_lines_go buffer.length buffer last = _
    rw [hk]
    simp only [process_lines_go, if_neg hn, if_pos hr]
    by_cases hc : clean_ansi_sequences (splitFirst '\r' buffer).1 ≠ []
        ∧ some (clean_ansi_sequences (splitFirst '\r' buffer).1) ≠ last
    · rw [if_pos hc, if_pos hc,
        process_lines_go_fuel k (splitFirst '\r' buffer).2.length
          (splitFirst '\r' buffer).2 _ (by omega) (le_refl _)]
      rfl
    · rw [if_neg hc, if_neg hc,
        process_lines_go_fuel k (splitFirst '\r' buffer).2.length
          (splitFirst '\r' buffer).2 _ (by omega) (le_refl _)]
      rfl
  · cases h : returncode == 0 <;> simp [final_message, h]

/-- Witness for C6: the buffer "a(CR)b(LF)c" holds both separators, so
the newline split wins and sends the complete line "a(CR)b" typed by
`determine_message_type`; the buffer "p(CR)q" without a newline sends the
incomplete line "p" as progress and records it. -/
theorem claim_C6_witness :
    process_lines ("a\rb\nc".toList) none =
      (emitComplete (clean_ansi_sequences (splitFirst '\n' ("a\rb\nc".toList)).1)
         ++ (process_lines (splitFirst '\n' ("a\rb\nc".toList)).2 none).1,
       (process_lines (splitFirst '\n' ("a\rb\nc".toList)).2 none).2)
    ∧ process_lines ("p\rq".toList) none =
        (if clean_ansi_sequences (splitFirst '\r' ("p\rq".toList)).1 ≠ []
            ∧ some (clean_ansi_sequences (splitFirst '\r' ("p\rq".toList)).1) ≠ none then
           (Msg.mk "progress" (clean_ansi_sequences (splitFirst '\r' ("p\rq".toList)).1)
              :: (process_lines (splitFirst '\r' ("p\rq".toList)).2
                    (some (clean_ansi_sequences (splitFirst '\r' ("p\rq".toList)).1))).1,
            (process_lines (splitFirst '\r' ("p\rq".toList)).2
               (some (clean_ansi_sequences (splitFirst '\r' ("p\rq".toList)).1))).2)
         else process_lines (splitFirst '\r' ("p\rq".toList)).2 none) :=
  ⟨(claim_C6_streaming_loop ("a\rb\nc".toList) none [] 0 "fw").1 (by decide),
   (claim_C6_streaming_loop ("p\rq".toList) none [] 0 "fw").2.2.1 (by decide) (by decide)⟩

end WebUIFlasher

